import Mathlib

/-!
Verification development for the tinyback URL-shortener resolution layer
(src/tinyback/services.py).

The Python source is shallowly embedded: every service strategy becomes a
Lean function from an explicit stubbed HTTP transport (a pure function from
request to response) to a result value.  Python byte strings are modelled as
Lean `String`s (`decode("utf-8")`/`encode("utf-8")` round trips are the
identity in this model).  A `fetch` call either returns a value (possibly
Python `None`, when the source falls off the end of a function), raises one
of the exceptions of the `tinyback.exceptions` taxonomy, or escapes with an
uncaught Python runtime error such as `NameError` or `TypeError`.

Transport-level I/O failures (`httplib.HTTPException`, `socket.error`) are
caught at the exchange boundary in the source and converted to
`ServiceException`; the stubbed transport in this model always yields a
response, so those catch-all branches are outside the model and every
theorem below quantifies over delivered responses.
-/

set_option autoImplicit false

/-- Character-wise lower-casing (behaves like `String.toLower`, written so
that it reduces inside the kernel). -/
def lowerStr (s : String) : String :=
  String.mk (s.toList.map Char.toLower)

/-- Split on a character predicate (behaves like `String.split`, written so
that it reduces inside the kernel); splitting the empty string yields one
empty field, as in Python `str.split(sep)`. -/
def splitChars (p : Char → Bool) : List Char → List (List Char)
  | [] => [[]]
  | c :: rest =>
    let r := splitChars p rest
    if p c then [] :: r
    else
      match r with
      | x :: xs => (c :: x) :: xs
      | [] => [[c]]

def strSplit (p : Char → Bool) (s : String) : List String :=
  (splitChars p s.toList).map String.mk

/-- `String.startsWith`, via character lists. -/
def strStartsWith (s pre : String) : Bool :=
  pre.toList.isPrefixOf s.toList

/-- `String.take`, via character lists. -/
def strTake (s : String) (n : Nat) : String :=
  String.mk (s.toList.take n)

/-- Uncaught Python runtime errors that can escape the service layer. -/
inductive PyErr where
  | nameError (name : String)
  | typeError (msg : String)
  | keyError (key : String)
  | attributeError (msg : String)
  | valueError (msg : String)
  | runtimeError (msg : String)
  deriving DecidableEq, Repr

/--
Modelled from the spec: the Outcome/Error taxonomy of `tinyback.exceptions`,
which is declared outside `src/` (only its raise sites are in
`src/tinyback/services.py`).  Per spec section 3 the taxonomy is
`NoRedirect`, `CodeBlocked(reason?)`, `ServiceBlocked(reason?)` (raised as
`BlockedException` in the source) and `ServiceError(message)` (raised as
`ServiceException`); a successful resolution returns the long URL directly.
-/
inductive Exc where
  | ServiceException (msg : String)
  | NoRedirectException (reason : Option String)
  | CodeBlockedException (reason : Option String)
  | BlockedException (reason : Option String)
  deriving DecidableEq, Repr

/--
Result of one Python-level `fetch` (or helper) call: a returned value
(`ret (some url)` is the `LongURL` outcome, `ret none` is Python `None`
from falling off the end of a function), a raised `tinyback.exceptions`
exception, or an uncaught Python error.
-/
inductive Res where
  | ret (v : Option String)
  | exc (e : Exc)
  | err (e : PyErr)
  deriving DecidableEq, Repr

/-- One HTTP response as seen through `httplib`: status, reason phrase and
response headers. -/
structure Response where
  status : Nat
  reason : String
  headers : List (String × String)
  deriving DecidableEq, Repr

/-- `httplib` `getresponse().getheader(name)`: case-insensitive lookup
returning `None` when the header is absent. -/
def Response.getheader (r : Response) (name : String) : Option String :=
  (r.headers.find? (fun p => lowerStr p.1 = lowerStr name)).map (fun p => p.2)

/-- Stubbed HTTP exchange capability: `head` models `_http_head code`
(HEAD to the service base path plus the argument), `get` models
`_http_get arg` (GET to the base path plus the argument, returning the
response and the body). -/
structure Transport where
  head : String → Response
  get : String → Response × String

/-- Python truthiness test `not location` for an optional header value:
true exactly for `None` and for the empty string. -/
def pyFalsy : Option String → Bool
  | none => true
  | some s => s = ""

/-- Contiguous-sublist test on character lists. -/
def listInfix (pat : List Char) : List Char → Bool
  | [] => pat.isPrefixOf []
  | c :: rest => pat.isPrefixOf (c :: rest) || listInfix pat rest

/-- Python substring test `pat in s`. -/
def pyIn (pat s : String) : Bool :=
  listInfix pat.toList s.toList

/-! ### `urlparse.urlparse`, `urlparse.parse_qs` and `urllib.unquote_plus`

Executable model of the Python 2 standard-library URL helpers, restricted
to the URL shapes the source feeds them (absolute or relative HTTP URLs;
IPv6 bracket syntax is not modelled).
-/

/-- Split a character list at the first occurrence of `sep`; the second
component is `none` when `sep` does not occur. -/
def splitAtFirst (sep : Char) : List Char → List Char × Option (List Char)
  | [] => ([], none)
  | c :: rest =>
    if c = sep then ([], some rest)
    else
      let (a, b) := splitAtFirst sep rest
      (c :: a, b)

/-- Characters allowed in a URL scheme (`urlparse.scheme_chars`). -/
def schemeChar (c : Char) : Bool :=
  c.isAlpha ∨ c.isDigit ∨ c = '+' ∨ c = '-' ∨ c = '.'

/-- Result of `urlparse.urlparse` (the `params` component is not used by the
source and is not modelled). -/
structure ParsedURL where
  scheme : String
  netloc : String
  path : String
  query : String
  fragment : String
  deriving DecidableEq, Repr

/-- Model of `urlparse.urlparse`: scheme (lower-cased, only when the prefix
before the first colon is a valid scheme) first, then the `//`-prefixed
netloc up to the next `/`, `?` or `#`, then the fragment after `#`, then the
query after `?`. -/
def urlparse (url : String) : ParsedURL :=
  let cs := url.toList
  let (scheme, rest1) :=
    match splitAtFirst ':' cs with
    | (pre, some post) =>
      if pre ≠ [] ∧ (pre.headD ' ').isAlpha ∧ pre.all schemeChar then
        (lowerStr (String.mk pre), post)
      else ("", cs)
    | (_, none) => ("", cs)
  let (netloc, rest2) :=
    if ['/', '/'].isPrefixOf rest1 then
      let r := rest1.drop 2
      let nl := r.takeWhile (fun c => c ≠ '/' ∧ c ≠ '?' ∧ c ≠ '#')
      (String.mk nl, r.drop nl.length)
    else ("", rest1)
  let (rest3, frag) := splitAtFirst '#' rest2
  let (pathCs, q) := splitAtFirst '?' rest3
  { scheme := scheme, netloc := netloc, path := String.mk pathCs,
    query := String.mk (q.getD []), fragment := String.mk (frag.getD []) }

/-- `ParsedURL.hostname`: the netloc after the last `@`, with any `:port`
suffix removed, lower-cased.  Python returns `None` for an empty netloc;
here the empty string plays that role (the source only compares the
hostname against non-empty literals, where the two are interchangeable). -/
def ParsedURL.hostname (u : ParsedURL) : String :=
  let afterAt := ((u.netloc.toList.reverse.takeWhile (fun c => c ≠ '@')).reverse)
  lowerStr (String.mk (afterAt.takeWhile (fun c => c ≠ ':')))

/-- Value of a hexadecimal digit, if any. -/
def hexVal (c : Char) : Option Nat :=
  if '0' ≤ c ∧ c ≤ '9' then some (c.toNat - '0'.toNat)
  else if 'a' ≤ c ∧ c ≤ 'f' then some (c.toNat - 'a'.toNat + 10)
  else if 'A' ≤ c ∧ c ≤ 'F' then some (c.toNat - 'A'.toNat + 10)
  else none

/-- Character-level model of `urllib.unquote_plus`: `+` becomes a space and
`%xx` with two hex digits is decoded; a `%` not followed by two hex digits
is kept literally (as in Python 2).  Since `+` is not a hex digit, doing the
plus replacement and the percent decoding in one pass agrees with the
sequential `replace`-then-`unquote` of the library. -/
def unquoteChars : List Char → List Char
  | [] => []
  | '%' :: a :: b :: rest =>
    match hexVal a, hexVal b with
    | some x, some y => Char.ofNat (16 * x + y) :: unquoteChars rest
    | _, _ => '%' :: unquoteChars (a :: b :: rest)
  | '+' :: rest => ' ' :: unquoteChars rest
  | c :: rest => c :: unquoteChars rest

def unquote_plus (s : String) : String :=
  String.mk (unquoteChars s.toList)

/-- Model of Python 2 `urlparse.parse_qsl` with default flags: fields are
split on both `&` and `;`, a field without `=` is skipped, a field with an
empty value is skipped (`keep_blank_values` is false), and both name and
value are `unquote_plus`-decoded. -/
def parse_qsl (qs : String) : List (String × String) :=
  let fields := ((strSplit (fun c => c = '&') qs).map (fun s => strSplit (fun c => c = ';') s)).flatten
  fields.filterMap (fun field =>
    match splitAtFirst '=' field.toList with
    | (_, none) => none
    | (n, some v) =>
      if v = [] then none
      else some (unquote_plus (String.mk n), unquote_plus (String.mk v)))

/-- `urlparse.parse_qs(qs)[key]`: the list of values for `key`, in order of
appearance; the key is in the dictionary exactly when this list is
non-empty. -/
def parseQs (qs key : String) : List String :=
  (parse_qsl qs).filterMap (fun p => if p.1 = key then some p.2 else none)

/-! ### `HTMLParser.HTMLParser().unescape` and `re.search` models -/

/-- Character-level model of `HTMLParser.HTMLParser().unescape`, restricted
to the four basic named character references (the source only ever feeds it
URLs extracted from HTML attributes and text). -/
def htmlUnescapeChars : List Char → List Char
  | '&' :: 'a' :: 'm' :: 'p' :: ';' :: rest => '&' :: htmlUnescapeChars rest
  | '&' :: 'l' :: 't' :: ';' :: rest => '<' :: htmlUnescapeChars rest
  | '&' :: 'g' :: 't' :: ';' :: rest => '>' :: htmlUnescapeChars rest
  | '&' :: 'q' :: 'u' :: 'o' :: 't' :: ';' :: rest => '"' :: htmlUnescapeChars rest
  | c :: rest => c :: htmlUnescapeChars rest
  | [] => []

def htmlUnescape (s : String) : String :=
  String.mk (htmlUnescapeChars s.toList)

/-- All ways to split off a middle segment at the current anchor: each
candidate is an initial segment of the input whose characters all satisfy
`cls` and which is immediately followed by `post`.  Candidates come out in
increasing length order, so the head is the lazy choice and the last is the
greedy choice. -/
def midCandidates (cls : Char → Bool) (post : List Char) : List Char → List (List Char)
  | [] => if post.isPrefixOf ([] : List Char) then [[]] else []
  | c :: rest =>
    (if post.isPrefixOf (c :: rest) then [[]] else []) ++
    (if cls c then (midCandidates cls post rest).map (fun m => c :: m) else [])

/-- Leftmost-match search for the Python regex `pre(X)post` where `pre` and
`post` are literal and `X` is `.*` (greedy) or `.*?` (lazy) over the
character class `cls` (`.` excludes the newline unless `re.DOTALL` is set).
Scans anchors left to right; at the first anchor where the whole pattern
matches, returns the captured middle chosen per greediness. -/
def searchFrom (pre post : List Char) (cls : Char → Bool) (greedy : Bool) :
    List Char → Option (List Char)
  | [] =>
    if pre.isPrefixOf ([] : List Char) then
      match midCandidates cls post [] with
      | [] => none
      | m :: ms => some (if greedy then (m :: ms).getLastD [] else m)
    else none
  | c :: rest =>
    (if pre.isPrefixOf (c :: rest) then
      match midCandidates cls post ((c :: rest).drop pre.length) with
      | [] => none
      | m :: ms => some (if greedy then (m :: ms).getLastD [] else m)
    else none) <|> searchFrom pre post cls greedy rest

/-- `re.search` for the literal-delimited one-group patterns of the source;
returns `match.group(1)`. -/
def reSearch (pre post : String) (cls : Char → Bool) (greedy : Bool)
    (data : String) : Option String :=
  (searchFrom pre.toList post.toList cls greedy data.toList).map String.mk

/-- The character class of `.` without `re.DOTALL`: anything but a
newline. -/
def clsNoNl (c : Char) : Bool := c ≠ '\n'

/-- The character class of `.` with `re.DOTALL`. -/
def clsAny (_ : Char) : Bool := true

/-! ### The generic status-code dispatcher (`SimpleService`) -/

/-- The four per-service status-code tables, named after the source
properties. -/
structure StatusTables where
  http_status_redirect : List Nat
  http_status_no_redirect : List Nat
  http_status_code_blocked : List Nat
  http_status_blocked : List Nat
  deriving DecidableEq, Repr

/-- Default status tables of `SimpleService`. -/
def SimpleService.status : StatusTables :=
  { http_status_redirect := [301, 302]
    http_status_no_redirect := [404]
    http_status_code_blocked := [410]
    http_status_blocked := [403, 420, 429] }

/-- `SimpleService.unexpected_http_status`, the default override hook. -/
def SimpleService.unexpected_http_status (resp : Response) : Res :=
  Res.exc (.ServiceException ("Unexpected HTTP status " ++ toString resp.status))

/-- `SimpleService.fetch`, parametrised by the status tables and the
override hook of the concrete service (Python resolves both by dynamic
dispatch). -/
def SimpleService.fetchWith (tbl : StatusTables)
    (hook : Transport → String → Response → Res)
    (t : Transport) (code : String) : Res :=
  let resp := t.head code
  if resp.status ∈ tbl.http_status_redirect then
    let location := resp.getheader "Location"
    if pyFalsy location then
      Res.exc (.ServiceException "No Location header after HTTP status 301")
    else Res.ret location
  else if resp.status ∈ tbl.http_status_no_redirect then
    Res.exc (.NoRedirectException none)
  else if resp.status ∈ tbl.http_status_code_blocked then
    Res.exc (.CodeBlockedException none)
  else if resp.status ∈ tbl.http_status_blocked then
    Res.exc (.BlockedException none)
  else hook t code resp

/-- The hook of a service that does not override
`unexpected_http_status`. -/
def SimpleService.defaultHook : Transport → String → Response → Res :=
  fun _ _ resp => SimpleService.unexpected_http_status resp

/-- `SimpleService.fetch` with the default tables and hook. -/
def SimpleService.fetch : Transport → String → Res :=
  SimpleService.fetchWith SimpleService.status SimpleService.defaultHook

/-! ### The Yourls protocol client (`YourlsService`) -/

/-- The abstract configuration of a `YourlsService` subclass: the two
abstract properties `yourls_api_url` and `yourls_url_convert`. -/
structure YourlsConfig where
  yourls_api_url : String
  yourls_url_convert : Nat
  deriving DecidableEq, Repr

/-- `YourlsService.charset`: derived from `yourls_url_convert`; any value
other than 36 or 62 raises `RuntimeError` when the property is read. -/
def YourlsService.charset (cfg : YourlsConfig) : Except PyErr String :=
  if cfg.yourls_url_convert = 36 then
    Except.ok "0123456789abcdefghijklmnopqrstuvwxyz"
  else if cfg.yourls_url_convert = 62 then
    Except.ok "0123456789abcdefghijklmnopqrstuvwxyzABCDEFGHIJKLMNOPQRSTUVWXYZ"
  else Except.error (.runtimeError "Bad value for yourls_url_convert parameter")

/-- The connection target established by a constructor: request path,
whether `httplib.HTTPSConnection` is used, and the connection host. -/
structure ConnTarget where
  path : String
  secure : Bool
  host : String
  deriving DecidableEq, Repr

/-- `YourlsService.__init__`: parses `yourls_api_url`, defaults the path to
`/`, and rejects any scheme other than `http` and `https` with a
`ValueError`.  It does not read `yourls_url_convert`. -/
def YourlsService.init (cfg : YourlsConfig) : Except PyErr ConnTarget :=
  let parsed_url := urlparse cfg.yourls_api_url
  let path := if parsed_url.path = "" then "/" else parsed_url.path
  if parsed_url.scheme = "http" then Except.ok ⟨path, false, parsed_url.netloc⟩
  else if parsed_url.scheme = "https" then Except.ok ⟨path, true, parsed_url.netloc⟩
  else Except.error (.valueError ("Unknown scheme " ++ parsed_url.scheme))

/-- A status/body pair as seen by clients that issue their own GET and read
the body (`YourlsService.fetch`). -/
structure SimpleResponse where
  status : Nat
  data : String
  deriving DecidableEq, Repr

/-- `YourlsService.fetch` on a delivered response (the I/O-failure branches
that convert `httplib`/`socket` errors to `ServiceException` are upstream
of this model). -/
def YourlsService.fetch (resp : SimpleResponse) : Res :=
  if resp.status = 200 then
    if resp.data = "not found" then Res.exc (.NoRedirectException none)
    else Res.ret (some resp.data)
  else Res.exc (.ServiceException ("Unexpected HTTP status " ++ toString resp.status))

/-! ### Bitly -/

/-- `Bitly._parse_warning_url`: re-validates a 302 Location pointing at the
`bit.ly` warning page before trusting its embedded target URL.  The local
`url`/`query` bindings of the source are inlined; `query["k"]` lookups on a
dict key guaranteed present by the guard become `headD`. -/
def Bitly.parse_warning_url (code url : String) : Res :=
  if (urlparse url).scheme ≠ "http" ∨ (urlparse url).netloc ≠ "bit.ly" ∨
      (urlparse url).path ≠ "/a/warning" then
    Res.exc (.ServiceException "Unexpected Location header after HTTP status 302")
  else if ¬(parseQs (urlparse url).query "url" ≠ [] ∧
        (parseQs (urlparse url).query "url").length = 1) ∨
      ¬(parseQs (urlparse url).query "hash" ≠ [] ∧
        (parseQs (urlparse url).query "hash").length = 1) then
    Res.exc (.ServiceException "Unexpected Location header after HTTP status 302")
  else if (parseQs (urlparse url).query "hash").headD "" ≠ code then
    Res.exc (.ServiceException "Hash mismatch for HTTP status 302")
  else Res.ret (some ((parseQs (urlparse url).query "url").headD ""))

/-- The validation condition of `Bitly._parse_warning_url`, as the claim
states it: scheme `http`, host `bit.ly`, path `/a/warning`, exactly one
`url` and one `hash` query value, and the `hash` value equal to the
code. -/
def Bitly.warningOk (code url : String) : Prop :=
  (urlparse url).scheme = "http" ∧ (urlparse url).netloc = "bit.ly" ∧
  (urlparse url).path = "/a/warning" ∧
  (parseQs (urlparse url).query "url").length = 1 ∧
  (parseQs (urlparse url).query "hash").length = 1 ∧
  (parseQs (urlparse url).query "hash").headD "" = code

instance (code url : String) : Decidable (Bitly.warningOk code url) :=
  inferInstanceAs (Decidable ((urlparse url).scheme = "http" ∧
    (urlparse url).netloc = "bit.ly" ∧ (urlparse url).path = "/a/warning" ∧
    (parseQs (urlparse url).query "url").length = 1 ∧
    (parseQs (urlparse url).query "hash").length = 1 ∧
    (parseQs (urlparse url).query "hash").headD "" = code))

/-- `Bitly.fetch`. -/
def Bitly.fetch (t : Transport) (code : String) : Res :=
  let resp := t.head code
  if resp.status = 301 then
    let location := resp.getheader "Location"
    if pyFalsy location then
      Res.exc (.ServiceException "No Location header after HTTP status 301")
    else if resp.reason = "Moved" then Res.ret location
    else if resp.reason = "Moved Permanently" then
      Res.exc (.CodeBlockedException none)
    else
      Res.exc (.ServiceException
        ("Unknown HTTP reason " ++ resp.reason ++ " after HTTP status 301"))
  else if resp.status = 302 then
    let location := resp.getheader "Location"
    if pyFalsy location then
      Res.exc (.ServiceException "No Location header after HTTP status 302")
    else Bitly.parse_warning_url code (location.getD "")
  else if resp.status = 403 then Res.exc (.BlockedException none)
  else if resp.status = 404 then Res.exc (.NoRedirectException none)
  else if resp.status = 410 then Res.exc (.CodeBlockedException none)
  else Res.exc (.ServiceException ("Unknown HTTP status " ++ toString resp.status))

/-! ### Isgd -/

/-- Status tables of `Isgd` (only `http_status_code_blocked` is
overridden). -/
def Isgd.status : StatusTables :=
  { SimpleService.status with http_status_code_blocked := [502] }

/-- The rate-limit banner `Isgd.unexpected_http_status` looks for. -/
def Isgd.rateLimitMarker : String :=
  "<div id=\"main\"><p>Rate limit exceeded - please wait 1 minute before accessing more shortened URLs</p></div>"

/-- The link-disabled marker `Isgd.unexpected_http_status` looks for. -/
def Isgd.disabledMarker : String :=
  "<div id=\"disabled\"><h2>Link Disabled</h2>"

/-- The preview-page marker `Isgd.unexpected_http_status` looks for. -/
def Isgd.previewMarker : String :=
  "<p>The full original link is shown below. <b>Click the link</b> if you\x27d like to proceed to the destination shown:"

/-- Literal prefix of the regex in `Isgd._parse_blocked` (the `\(`, `\)`
and `\.` escapes denote literal characters). -/
def Isgd.blockedPre : String :=
  "<p>For reference and to help those fighting spam the original destination of this URL is given below (we strongly recommend you don\x27t visit it since it may damage your PC): -<br />"

/-- Literal suffix of the regex in `Isgd._parse_blocked`. -/
def Isgd.blockedPost : String :=
  "</p><h2>is.gd</h2><p>is.gd is a free service used to shorten long URLs."

/-- `Isgd._parse_blocked`: greedy `(.*)` group between the two literals. -/
def Isgd.parse_blocked (code data : String) : Res :=
  match reSearch Isgd.blockedPre Isgd.blockedPost clsNoNl true data with
  | none =>
    Res.exc (.ServiceException "Could not find target URL in \x27Link Disabled\x27 page")
  | some g =>
    let url := htmlUnescape g
    if url = "" then Res.exc (.CodeBlockedException (some "Empty URL on preview"))
    else Res.ret (some url)

/-- `Isgd._parse_preview`: greedy `(.*)` group between the two literals. -/
def Isgd.parse_preview (code data : String) : Res :=
  match reSearch
      "<b>Click the link</b> if you\x27d like to proceed to the destination shown: -<br /><a href=\""
      "\" class=\"biglink\">" clsNoNl true data with
  | none =>
    Res.exc (.ServiceException "Could not find target URL in \x27Preview\x27 page")
  | some g => Res.ret (some (htmlUnescape g))

/-- `Isgd.unexpected_http_status`: on a first-exchange status other than
200 defers to the default hook; otherwise re-fetches via GET, requires the
status to still be 200, and dispatches on known page markers.  When the
body is non-empty and matches none of the three markers the source falls
off the end of the function and returns Python `None`. -/
def Isgd.unexpected_http_status (t : Transport) (code : String) (resp : Response) : Res :=
  if resp.status ≠ 200 then SimpleService.unexpected_http_status resp
  else
    let (resp2, data) := t.get code
    if resp2.status ≠ 200 then
      Res.exc (.ServiceException
        ("HTTP status changed from 200 to " ++ toString resp2.status ++ " on second request"))
    else if data = "" then
      Res.exc (.CodeBlockedException (some "Empty response on status 200"))
    else if pyIn Isgd.rateLimitMarker data then Res.exc (.BlockedException none)
    else if pyIn Isgd.disabledMarker data then Isgd.parse_blocked code data
    else if pyIn Isgd.previewMarker data then Isgd.parse_preview code data
    else Res.ret none

/-- `Isgd.fetch` = the generic dispatcher with the Isgd tables and hook. -/
def Isgd.fetch (t : Transport) (code : String) : Res :=
  SimpleService.fetchWith Isgd.status Isgd.unexpected_http_status t code

/-! ### Owly -/

/-- `Owly.unexpected_http_status`: re-fetch on 200 and scrape the safety
warning page (lazy `(.*?)` group). -/
def Owly.unexpected_http_status (t : Transport) (code : String) (resp : Response) : Res :=
  if resp.status ≠ 200 then SimpleService.unexpected_http_status resp
  else
    let (resp2, data) := t.get code
    if resp2.status ≠ 200 then
      Res.exc (.ServiceException
        ("HTTP status changed from 200 to " ++ toString resp2.status ++ " on second request"))
    else
      match reSearch "<a class=\"btn ignore\" href=\"" "\" title=" clsNoNl false data with
      | none => Res.exc (.ServiceException "Could not find target URL in safety warning")
      | some g => Res.ret (some (htmlUnescape g))

/-- `Owly.fetch` = the generic dispatcher with default tables and the Owly
hook. -/
def Owly.fetch (t : Transport) (code : String) : Res :=
  SimpleService.fetchWith SimpleService.status Owly.unexpected_http_status t code

/-! ### Tinyurl -/

/-- `Tinyurl._parse_errorhelp`: extracts the meta-refresh target (lazy
group) and re-validates it against `http://tinyurl.com/errorb.php` with
exactly one `url` and one `path` query value matching the code. -/
def Tinyurl.parse_errorhelp (code data : String) : Res :=
  match reSearch "<meta http-equiv=\"refresh\" content=\"0;url=" "\">" clsNoNl false data with
  | none =>
    Res.exc (.ServiceException "No redirect on \"errorhelp\" page on HTTP status 200")
  | some g =>
    let u := urlparse g
    if u.scheme ≠ "http" ∨ u.netloc ≠ "tinyurl.com" ∨ u.path ≠ "/errorb.php" then
      Res.exc (.ServiceException "Unexpected redirect on \"errorhelp\" page  on HTTP status 200")
    else
      let q := fun k => parseQs u.query k
      if ¬(q "url" ≠ [] ∧ (q "url").length = 1) ∨ ¬(q "path" ≠ [] ∧ (q "path").length = 1) then
        Res.exc (.ServiceException "Unexpected redirect on \"errorhelp\" page  on HTTP status 200")
      else if (q "path").headD "" ≠ "/" ++ code then
        Res.exc (.ServiceException "Code mismatch on \"errorhelp\" on HTTP status 200")
      else Res.ret (some ((q "url").headD ""))

/-- `Tinyurl._parse_tinyurl_redirect` (lazy group, `re.DOTALL`; the `\.`
escape in the pattern is a literal dot). -/
def Tinyurl.parse_tinyurl_redirect (data : String) : Res :=
  match reSearch
      "<p class=\"intro\">The URL you followed redirects back to a TinyURL and therefore we can\x27t directly send you to the site. The URL it redirects to is <a href=\""
      "\">" clsAny false data with
  | none =>
    Res.exc (.ServiceException "No redirect on \"tinyurl redirect\" page on HTTP status 200")
  | some g => Res.ret (some (htmlUnescape g))

/-- `Tinyurl._scrub_url`: strips the known tracking redirector; reading
`query["out"]` without checking raises `KeyError` when the parameter is
absent from a `redirect.tinyurl.com/api/click` URL. -/
def Tinyurl.scrub_url (code url : String) : Res :=
  let parsed_url := urlparse url
  if parsed_url.hostname = "redirect.tinyurl.com" ∧ parsed_url.path = "/api/click" then
    match parseQs parsed_url.query "out" with
    | [] => Res.err (.keyError "out")
    | v :: _ => Res.ret (some v)
  else Res.ret (some url)

/-- `Tinyurl._preview`: fetches the preview endpoint and extracts the
redirect target (lazy group, `re.DOTALL`; the unescaped `.` of
`site.</a>` in the source pattern is modelled as a literal dot). -/
def Tinyurl.preview (t : Transport) (code affiliate_url : String) : Res :=
  let (resp, data) := t.get ("preview.php?num=" ++ code)
  if resp.status ≠ 200 then
    Res.exc (.ServiceException
      ("Unexpected HTTP status " ++ toString resp.status ++ " on preview page"))
  else
    match reSearch "<a id=\"redirecturl\" href=\"" "\">Proceed to this site.</a>" clsAny false data with
    | none => Res.exc (.ServiceException "No redirect on preview page")
    | some g =>
      if g = "" then Tinyurl.scrub_url code affiliate_url
      else Res.ret (some (htmlUnescape g))

/-- `Tinyurl._fetch_200`: second GET after a HEAD that answered 200. -/
def Tinyurl.fetch_200 (t : Transport) (code : String) : Res :=
  let (resp, data) := t.get code
  if resp.status ≠ 200 then
    Res.exc (.ServiceException
      ("HTTP status changed from 200 to " ++ toString resp.status ++ " on second request"))
  else if pyIn "<title>Redirecting...</title>" data then Tinyurl.parse_errorhelp code data
  else if pyIn "Error: TinyURL redirects to a TinyURL." data then Tinyurl.parse_tinyurl_redirect data
  else Res.exc (.ServiceException "Unexpected response on status 200")

/-- Python `tiny and tiny[:3] == "aff"` on the optional `X-tiny` header. -/
def Tinyurl.isAff : Option String → Bool
  | none => false
  | some ts => strTake ts 3 = "aff"

/-- `Tinyurl.fetch`. -/
def Tinyurl.fetch (t : Transport) (code : String) : Res :=
  let resp := t.head code
  if resp.status = 200 then Tinyurl.fetch_200 t code
  else if resp.status = 301 then
    let location := resp.getheader "Location"
    if pyFalsy location then
      Res.exc (.CodeBlockedException (some "No Location header after HTTP status 301"))
    else if Tinyurl.isAff (resp.getheader "X-tiny") then
      Tinyurl.preview t code (location.getD "")
    else Res.ret location
  else if resp.status = 302 then Res.exc (.CodeBlockedException none)
  else if resp.status = 404 then Res.exc (.NoRedirectException none)
  else if resp.status = 500 then Res.exc (.ServiceException "HTTP status 500")
  else Res.exc (.ServiceException ("Unknown HTTP status " ++ toString resp.status))

/-! ### Snipurl -/

/-- Status tables of `Snipurl` (`http_status_no_redirect` is overridden to
`[410]`; the inherited code-blocked table still contains 410, but the
no-redirect lookup precedes it). -/
def Snipurl.status : StatusTables :=
  { SimpleService.status with http_status_no_redirect := [410] }

/-- `Snipurl.unexpected_http_status`: re-fetch on 500 and scrape the
preview page (lazy group). -/
def Snipurl.unexpected_http_status (t : Transport) (code : String) (resp : Response) : Res :=
  if resp.status ≠ 500 then SimpleService.unexpected_http_status resp
  else
    let (resp2, data) := t.get code
    if resp2.status ≠ 500 then
      Res.exc (.ServiceException
        ("HTTP status changed from 500 to " ++ toString resp2.status ++ " on second request"))
    else
      match reSearch
          "<p>You clicked on a snipped URL, which will take you to the following looong URL: </p> <div class=\"quote\"><span class=\"quotet\"></span><br/>"
          "</div> <br />" clsNoNl false data with
      | none => Res.exc (.ServiceException "Could not find target URL on preview page")
      | some g => Res.ret (some (htmlUnescape g))

/-- `Snipurl.fetch`: the generic dispatcher result, with a private-key
check on the returned location.  `location.decode("ascii")` can only equal
the ASCII comparison string when the bytes are ASCII, so the
`UnicodeDecodeError` pass-through is equivalent to a plain comparison; on a
Python `None` return the `decode` attribute access would raise
(unreachable: the Snipurl hook never returns `None`). -/
def Snipurl.fetch (t : Transport) (code : String) : Res :=
  match SimpleService.fetchWith Snipurl.status Snipurl.unexpected_http_status t code with
  | Res.ret (some location) =>
    if location = "/site/getprivate?snip=" ++ code then
      Res.exc (.CodeBlockedException (some "Private key required"))
    else Res.ret (some location)
  | Res.ret none => Res.err (.attributeError "NoneType object has no attribute decode")
  | r => r

/-! ### Trimnew and Trim -/

/-- Status tables of `Trimnew`: every set overridden. -/
def Trimnew.status : StatusTables :=
  { http_status_redirect := [301]
    http_status_no_redirect := []
    http_status_code_blocked := []
    http_status_blocked := [404] }

/-- `Trimnew.fetch`: the code `"500"` is blocked before any exchange; a
redirect to the `http://tr.im/404` page is reclassified as no-redirect. -/
def Trimnew.fetch (t : Transport) (code : String) : Res :=
  if code = "500" then Res.exc (.CodeBlockedException none)
  else
    match SimpleService.fetchWith Trimnew.status SimpleService.defaultHook t code with
    | Res.ret (some url) =>
      if url = "http://tr.im/404" then Res.exc (.NoRedirectException none)
      else Res.ret (some url)
    | r => r

/-- `Trim.fetch`: a re-implementation of the generic dispatcher over the
default tables, with the `http://tr.im/404` guard applied before the
missing-Location check and skipped when the code itself is `"404"`. -/
def Trim.fetch (t : Transport) (code : String) : Res :=
  let resp := t.head code
  if resp.status ∈ SimpleService.status.http_status_redirect then
    let location := resp.getheader "Location"
    if code ≠ "404" ∧ location = some "http://tr.im/404" then
      Res.exc (.NoRedirectException (some "Redirected to 404 page"))
    else if pyFalsy location then
      Res.exc (.ServiceException "No Location header after HTTP status 301")
    else Res.ret location
  else if resp.status ∈ SimpleService.status.http_status_no_redirect then
    Res.exc (.NoRedirectException none)
  else if resp.status ∈ SimpleService.status.http_status_code_blocked then
    Res.exc (.CodeBlockedException none)
  else if resp.status ∈ SimpleService.status.http_status_blocked then
    Res.exc (.BlockedException none)
  else SimpleService.unexpected_http_status resp

/-! ### BaseVisibliService (VisibliHex, Visibli) -/

/-- Status tables of `BaseVisibliService`. -/
def BaseVisibliService.status : StatusTables :=
  { SimpleService.status with
    http_status_redirect := [301]
    http_status_no_redirect := [] }

/-- The module-level names bound in `tinyback/services.py` by the time any
hook runs: the imports and the class, registry and factory definitions.
`BaseVisbliService` (note the missing `i`) is not among them, and it is not
a Python builtin either, so evaluating it raises `NameError`. -/
def servicesModuleNames : List String :=
  ["HTMLParser", "abc", "httplib", "json", "platform", "re", "socket",
   "urllib", "urlparse", "tinyback", "exceptions",
   "Service", "HTTPService", "SimpleService", "YourlsService", "Bitly",
   "Isgd", "Owly", "Tinyurl", "Ur1ca", "Snipurl", "Googl", "Trimnew",
   "Postly", "Wpme", "BaseVisibliService", "VisibliHex", "Visibli", "Vbly",
   "Arsehat", "Pixorial", "Twitter", "Trim", "_factory_map", "factory"]

/-- The iframe regex of `BaseVisibliService`:
`<iframe id="[^"]+" src="([^"]+)">`.  Both `[^"]+` runs are delimited by a
following literal `"`, so each can only end at the first quote and matching
at a fixed anchor is deterministic. -/
def iframeAttempt (u : List Char) : Option (List Char) :=
  let run1 := u.takeWhile (fun c => c ≠ '"')
  if run1 = [] then none
  else
    let u2 := u.drop run1.length
    if ("\" src=\"").toList.isPrefixOf u2 then
      let u3 := u2.drop ("\" src=\"").toList.length
      let run2 := u3.takeWhile (fun c => c ≠ '"')
      if run2 ≠ [] ∧ ("\">").toList.isPrefixOf (u3.drop run2.length) then some run2
      else none
    else none

/-- Leftmost-anchor scan for the iframe regex. -/
def iframeSearchFrom : List Char → Option (List Char)
  | [] => none
  | c :: rest =>
    (if ("<iframe id=\"").toList.isPrefixOf (c :: rest) then
      iframeAttempt ((c :: rest).drop ("<iframe id=\"").toList.length)
    else none) <|> iframeSearchFrom rest

def iframeSearch (data : String) : Option String :=
  (iframeSearchFrom data.toList).map String.mk

/-- `BaseVisibliService.unexpected_http_status`.  The source line for the
not-302-not-200 branch reads
`return super(BaseVisbliService, self).unexpected_http_status(code, resp)`:
the misspelt name is looked up in the module namespace (and builtins) at
call time, which raises `NameError`. -/
def BaseVisibliService.unexpected_http_status (t : Transport) (code : String)
    (resp : Response) : Res :=
  if resp.status = 302 then
    let location := resp.getheader "Location"
    match location with
    | some l =>
      if l ≠ "" ∧ (pyIn "sharedby" l ∨ pyIn "visibli" l) then
        Res.exc (.NoRedirectException none)
      else if l ≠ "" ∧ strStartsWith l "http://yahoo.com" then
        Res.exc (.BlockedException (some ("Banned (location=" ++ l ++ ")")))
      else Res.ret location
    | none => Res.ret none
  else if resp.status ≠ 200 then
    if servicesModuleNames.contains "BaseVisbliService" then
      SimpleService.unexpected_http_status resp
    else Res.err (.nameError "BaseVisbliService")
  else
    let (resp2, data) := t.get code
    if resp2.status ≠ 200 then
      Res.exc (.ServiceException
        ("HTTP status changed from 200 to " ++ toString resp2.status ++ " on second request"))
    else
      match iframeSearch data with
      | none =>
        if pyIn "Undefined index:  HTTP_USER_AGENT" data then
          Res.exc (.ServiceException "Website broken about user-agent")
        else Res.exc (.ServiceException "No iframe url found")
      | some g => Res.ret (some (htmlUnescape g))

/-- `fetch` of the Visibli services = the generic dispatcher with the
Visibli tables and hook. -/
def BaseVisibliService.fetch (t : Transport) (code : String) : Res :=
  SimpleService.fetchWith BaseVisibliService.status
    BaseVisibliService.unexpected_http_status t code

/-! ### Googl (JSON API) -/

/-- Values produced by `json.loads`.  `obj` models the resulting dict
(keys distinct, later duplicates already resolved by the parser). -/
inductive Json where
  | null
  | bool (b : Bool)
  | num (n : Int)
  | str (s : String)
  | arr (elems : List Json)
  | obj (members : List (String × Json))

/-- Python equality of a JSON value against a string literal: only a string
value can compare equal; any other type compares unequal without error. -/
def Json.eqStr : Json → String → Bool
  | Json.str s, t => s = t
  | _, _ => false

/-- Python `key in data` on a `json.loads` result: key membership for a
dict, element equality for a list, substring test for a string, and a
`TypeError` for the non-iterable types (number, boolean, `None`). -/
def Json.hasMember (j : Json) (key : String) : Except PyErr Bool :=
  match j with
  | Json.obj members => Except.ok (members.any (fun kv => kv.1 = key))
  | Json.arr elems => Except.ok (elems.any (fun x => x.eqStr key))
  | Json.str s => Except.ok (pyIn key s)
  | _ => Except.error (.typeError "argument of type is not iterable")

/-- Python `data[key]` with a string key on a `json.loads` result. -/
def Json.getItem (j : Json) (key : String) : Except PyErr Json :=
  match j with
  | Json.obj members =>
    match members.find? (fun kv => kv.1 = key) with
    | some kv => Except.ok kv.2
    | none => Except.error (.keyError key)
  | Json.str _ => Except.error (.typeError "string indices must be integers")
  | Json.arr _ => Except.error (.typeError "list indices must be integers")
  | _ => Except.error (.typeError "object is not subscriptable")

/-- Python `str()` of a JSON value, as used by `"Status: %s"`; the
container cases are abbreviated (the source only formats the scalar
`status` field of the API). -/
def Json.pyStr : Json → String
  | Json.null => "None"
  | Json.bool b => if b then "True" else "False"
  | Json.num n => toString n
  | Json.str s => s
  | Json.arr _ => "[...]"
  | Json.obj _ => "\x7b...\x7d"

/-- Result of a `Googl` call: like `Res` but the returned value is the raw
JSON field value (`return data["longUrl"]` does not convert to a
string). -/
inductive GRes where
  | ret (v : Json)
  | exc (e : Exc)
  | err (e : PyErr)

/-- `Googl._parse_json` on the result of `json.loads` (`none` models the
`ValueError` branch for a body that is not valid JSON).  Mirrors the
short-circuit evaluation of the source, so a membership test or item
access that raises an uncaught Python error escapes as `GRes.err`. -/
def Googl.parse_json (data : Option Json) : GRes :=
  match data with
  | none => GRes.exc (.ServiceException "Could not decode response")
  | some d =>
    match d.hasMember "kind" with
    | Except.error e => GRes.err e
    | Except.ok kin =>
      if kin = false then GRes.exc (.ServiceException "No/bad type given")
      else
        match d.getItem "kind" with
        | Except.error e => GRes.err e
        | Except.ok v =>
          if ¬(v.eqStr "urlshortener#url") then GRes.exc (.ServiceException "No/bad type given")
          else
            match d.hasMember "status" with
            | Except.error e => GRes.err e
            | Except.ok st =>
              if st = false then GRes.exc (.ServiceException "No status given")
              else
                match d.hasMember "longUrl" with
                | Except.error e => GRes.err e
                | Except.ok lu =>
                  if lu = false then
                    match d.getItem "status" with
                    | Except.error e => GRes.err e
                    | Except.ok sv =>
                      GRes.exc (.CodeBlockedException (some ("Status: " ++ sv.pyStr)))
                  else
                    match d.getItem "longUrl" with
                    | Except.error e => GRes.err e
                    | Except.ok uv => GRes.ret uv

/-- `Googl.fetch` on a delivered response, the body already passed through
`json.loads` (`none` = not valid JSON). -/
def Googl.fetch (status : Nat) (data : Option Json) : GRes :=
  if status = 200 then Googl.parse_json data
  else if status = 403 then GRes.exc (.BlockedException none)
  else if status = 404 then GRes.exc (.NoRedirectException none)
  else GRes.exc (.ServiceException ("Unexpected HTTP status " ++ toString status))

/-! ### Concrete stub transports and responses used by the witnesses -/

/-- A 200 response with no interesting headers. -/
def respOk : Response := ⟨200, "OK", []⟩

/-- A 500 response with no interesting headers. -/
def respErr : Response := ⟨500, "Internal Server Error", []⟩

/-- HEAD answers 301 with a Location. -/
def tRedirect : Transport :=
  ⟨fun _ => ⟨301, "Moved Permanently", [("Location", "http://example.org/x")]⟩,
   fun _ => (respOk, "")⟩

/-- HEAD answers 200, the follow-up GET answers 404 (so the second status
differs from both 200 and 500 first-exchange statuses). -/
def tGet404 : Transport :=
  ⟨fun _ => respOk, fun _ => (⟨404, "Not Found", []⟩, "")⟩

/-- HEAD answers 200, GET answers 200 with a non-empty body that contains
none of the markers any scraping hook looks for. -/
def tPlainPage : Transport :=
  ⟨fun _ => respOk, fun _ => (respOk, "<html>hello</html>")⟩

/-- HEAD answers 301 with the tr.im item-not-found page as Location. -/
def tTrim404 : Transport :=
  ⟨fun _ => ⟨301, "Moved", [("Location", "http://tr.im/404")]⟩,
   fun _ => (respOk, "")⟩

/-- HEAD answers 301/"Moved" with a Location, as bit.ly does on a plain
redirect. -/
def tBitlyMoved : Transport :=
  ⟨fun _ => ⟨301, "Moved", [("Location", "http://example.org/long")]⟩,
   fun _ => (respOk, "")⟩

/-- HEAD answers 302 with a well-formed bit.ly warning-page Location whose
hash is `abc`. -/
def tBitlyWarning : Transport :=
  ⟨fun _ => ⟨302, "Found",
      [("Location", "http://bit.ly/a/warning?url=http://example.org/page&hash=abc")]⟩,
   fun _ => (respOk, "")⟩

/-- Claim C1: in the generic status-code dispatcher (`SimpleService.fetch`,
here parametrised by the status tables and override hook of the concrete
service), every response whose status lies in the redirect-ok set and that
carries a non-empty `Location` header resolves to `LongURL(location)`,
while such a status with an absent or empty `Location` header always
yields `ServiceError` (never `NoRedirect`). -/
theorem claim1_generic_redirect (tbl : StatusTables)
    (hook : Transport → String → Response → Res) (t : Transport) (code : String)
    (h : (t.head code).status ∈ tbl.http_status_redirect) :
    (∀ loc, (t.head code).getheader "Location" = some loc → loc ≠ "" →
      SimpleService.fetchWith tbl hook t code = Res.ret (some loc)) ∧
    ((t.head code).getheader "Location" = none ∨ (t.head code).getheader "Location" = some "" →
      SimpleService.fetchWith tbl hook t code =
        Res.exc (.ServiceException "No Location header after HTTP status 301")) := by
  unfold SimpleService.fetchWith
  constructor
  · intro loc hloc hne
    simp [h, hloc, pyFalsy, hne]
  · intro hcase
    rcases hcase with h0 | h0 <;> simp [h, h0, pyFalsy]

theorem claim1_witness :
    301 ∈ SimpleService.status.http_status_redirect ∧
    SimpleService.fetch tRedirect "abc" = Res.ret (some "http://example.org/x") :=
  ⟨by decide,
   (claim1_generic_redirect SimpleService.status SimpleService.defaultHook tRedirect "abc"
     (by decide)).1 "http://example.org/x" (by decide) (by decide)⟩

/-- Claim C3: the Yourls protocol client maps a 200 response whose body is
the literal text `not found` to `NoRedirect`, any other 200 body verbatim
to `LongURL(body)`, and any non-200 status to `ServiceError`. -/
theorem claim3_yourls_fetch (resp : SimpleResponse) :
    (resp.status = 200 → resp.data = "not found" →
      YourlsService.fetch resp = Res.exc (.NoRedirectException none)) ∧
    (resp.status = 200 → resp.data ≠ "not found" →
      YourlsService.fetch resp = Res.ret (some resp.data)) ∧
    (resp.status ≠ 200 →
      YourlsService.fetch resp =
        Res.exc (.ServiceException ("Unexpected HTTP status " ++ toString resp.status))) := by
  unfold YourlsService.fetch
  refine ⟨fun h1 h2 => ?_, fun h1 h2 => ?_, fun h1 => ?_⟩
  · simp [h1, h2]
  · simp [h1, h2]
  · simp [h1]

theorem claim3_witness :
    YourlsService.fetch ⟨200, "http://long.example/path"⟩ =
      Res.ret (some "http://long.example/path") :=
  (claim3_yourls_fetch ⟨200, "http://long.example/path"⟩).2.1 rfl (by decide)

/-- Claim C10: whenever the first-exchange status is neither 302 nor 200,
`BaseVisibliService.unexpected_http_status` evaluates the undefined module
name `BaseVisbliService` and raises an uncaught `NameError` instead of
producing one of the five Outcome kinds. -/
theorem claim10_visibli_nameerror (t : Transport) (code : String) (resp : Response)
    (h302 : resp.status ≠ 302) (h200 : resp.status ≠ 200) :
    servicesModuleNames.contains "BaseVisbliService" = false ∧
    BaseVisibliService.unexpected_http_status t code resp =
      Res.err (.nameError "BaseVisbliService") := by
  have hname : servicesModuleNames.contains "BaseVisbliService" = false := by decide
  refine ⟨hname, ?_⟩
  unfold BaseVisibliService.unexpected_http_status
  simp [h302, h200, hname]
  intro hmem
  exact absurd hmem (by decide)

theorem claim10_witness :
    BaseVisibliService.unexpected_http_status tGet404 "abc" respErr =
      Res.err (.nameError "BaseVisbliService") :=
  (claim10_visibli_nameerror tGet404 "abc" respErr (by decide) (by decide)).2

/-- Claim C2 (failing-input evidence): on a HEAD status of 200 with a
follow-up GET that answers 200 with a non-empty body containing none of
the three recognised page markers, `Isgd.fetch` completes with Python
`None` instead of one of the five Outcome kinds, contradicting the claim
that a missing fragment is always a `ServiceError`. -/
theorem claim2_isgd_silent_none :
    (tPlainPage.head "abc").status = 200 ∧ tPlainPage.get "abc" = (respOk, "<html>hello</html>") ∧
    Isgd.fetch tPlainPage "abc" = Res.ret none := by
  refine ⟨rfl, rfl, ?_⟩
  decide

/-- Claim C9 (failing-input evidence): a 200 response whose body is the
valid JSON document `5` makes `Googl.fetch` raise an uncaught `TypeError`
from the membership test `"kind" in data`, not the `ServiceError` the
claim requires for a body lacking a `kind` field. -/
theorem claim9_googl_typeerror :
    Googl.fetch 200 (some (Json.num 5)) =
      GRes.err (.typeError "argument of type is not iterable") := rfl

/-- Claim C4: in every override path that performs a second GET exchange
after the first exchange (Isgd, Owly, Tinyurl, Snipurl and the Visibli
base service), a second-exchange status that differs from the
first-exchange status yields `ServiceError` and the second body is never
parsed for a URL. -/
theorem claim4_second_status_mismatch (t : Transport) (code : String)
    (resp resp' : Response) :
    (resp.status = 200 → (t.get code).1.status ≠ 200 →
      Isgd.unexpected_http_status t code resp =
        Res.exc (.ServiceException ("HTTP status changed from 200 to " ++
          toString (t.get code).1.status ++ " on second request"))) ∧
    (resp.status = 200 → (t.get code).1.status ≠ 200 →
      Owly.unexpected_http_status t code resp =
        Res.exc (.ServiceException ("HTTP status changed from 200 to " ++
          toString (t.get code).1.status ++ " on second request"))) ∧
    ((t.head code).status = 200 → (t.get code).1.status ≠ 200 →
      Tinyurl.fetch t code =
        Res.exc (.ServiceException ("HTTP status changed from 200 to " ++
          toString (t.get code).1.status ++ " on second request"))) ∧
    (resp'.status = 500 → (t.get code).1.status ≠ 500 →
      Snipurl.unexpected_http_status t code resp' =
        Res.exc (.ServiceException ("HTTP status changed from 500 to " ++
          toString (t.get code).1.status ++ " on second request"))) ∧
    (resp.status = 200 → (t.get code).1.status ≠ 200 →
      BaseVisibliService.unexpected_http_status t code resp =
        Res.exc (.ServiceException ("HTTP status changed from 200 to " ++
          toString (t.get code).1.status ++ " on second request"))) := by
  refine ⟨fun h1 h2 => ?_, fun h1 h2 => ?_, fun h1 h2 => ?_, fun h1 h2 => ?_, fun h1 h2 => ?_⟩
  · unfold Isgd.unexpected_http_status
    rcases hg : t.get code with ⟨r2, d⟩
    rw [hg] at h2
    simp only [hg]
    simp at h2
    simp [h1, h2]
  · unfold Owly.unexpected_http_status
    rcases hg : t.get code with ⟨r2, d⟩
    rw [hg] at h2
    simp only [hg]
    simp at h2
    simp [h1, h2]
  · unfold Tinyurl.fetch Tinyurl.fetch_200
    rcases hg : t.get code with ⟨r2, d⟩
    rw [hg] at h2
    simp only [hg]
    simp at h2
    simp [h1, h2]
  · unfold Snipurl.unexpected_http_status
    rcases hg : t.get code with ⟨r2, d⟩
    rw [hg] at h2
    simp only [hg]
    simp at h2
    simp [h1, h2]
  · unfold BaseVisibliService.unexpected_http_status
    rcases hg : t.get code with ⟨r2, d⟩
    rw [hg] at h2
    simp only [hg]
    simp at h2
    simp [h1, h2]

theorem claim4_witness :
    Isgd.unexpected_http_status tGet404 "abc" respOk =
      Res.exc (.ServiceException "HTTP status changed from 200 to 404 on second request") ∧
    Owly.unexpected_http_status tGet404 "abc" respOk =
      Res.exc (.ServiceException "HTTP status changed from 200 to 404 on second request") ∧
    Tinyurl.fetch tGet404 "abc" =
      Res.exc (.ServiceException "HTTP status changed from 200 to 404 on second request") ∧
    Snipurl.unexpected_http_status tGet404 "abc" respErr =
      Res.exc (.ServiceException "HTTP status changed from 500 to 404 on second request") ∧
    BaseVisibliService.unexpected_http_status tGet404 "abc" respOk =
      Res.exc (.ServiceException "HTTP status changed from 200 to 404 on second request") := by
  obtain ⟨h1, h2, h3, h4, h5⟩ :=
    claim4_second_status_mismatch tGet404 "abc" respOk respErr
  exact ⟨h1 rfl (by decide), h2 rfl (by decide), h3 rfl (by decide),
    h4 rfl (by decide), h5 rfl (by decide)⟩

/-- Claim C6 counterexample: for `Trim` with the code `"404"`, a 301
response with `Location: http://tr.im/404` is returned as
`LongURL("http://tr.im/404")`, not reclassified as `NoRedirect`, so the
claim as stated fails. -/
theorem claim6_counterexample :
    Trim.fetch tTrim404 "404" = Res.ret (some "http://tr.im/404") := by decide

/-- Claim C6 (amended): a redirect-ok status with `Location` equal to the
well-known `http://tr.im/404` item-not-found page is reclassified as
`NoRedirect` by `Trimnew.fetch` for every code other than `"500"` (which
is classified `CodeBlocked` before any exchange) and by `Trim.fetch` for
every code other than `"404"` (for which the guard is skipped). -/
theorem claim6_trim_notfound_page (t : Transport) (code : String) :
    (code ≠ "500" → (t.head code).status ∈ Trimnew.status.http_status_redirect →
      (t.head code).getheader "Location" = some "http://tr.im/404" →
      Trimnew.fetch t code = Res.exc (.NoRedirectException none)) ∧
    (code ≠ "404" → (t.head code).status ∈ SimpleService.status.http_status_redirect →
      (t.head code).getheader "Location" = some "http://tr.im/404" →
      Trim.fetch t code = Res.exc (.NoRedirectException (some "Redirected to 404 page"))) := by
  constructor
  · intro hc hs hl
    unfold Trimnew.fetch SimpleService.fetchWith
    simp [hc, hs, hl, pyFalsy]
  · intro hc hs hl
    unfold Trim.fetch
    simp [hc, hs, hl]

theorem claim6_witness :
    Trimnew.fetch tTrim404 "abc" = Res.exc (.NoRedirectException none) ∧
    Trim.fetch tTrim404 "abc" = Res.exc (.NoRedirectException (some "Redirected to 404 page")) :=
  ⟨(claim6_trim_notfound_page tTrim404 "abc").1 (by decide) (by decide) (by decide),
   (claim6_trim_notfound_page tTrim404 "abc").2 (by decide) (by decide) (by decide)⟩

/-- Claim C7: for `Bitly` on a 301 response with a non-empty `Location`
header, the outcome is determined by the reason phrase: `Moved` yields
`LongURL(location)`, `Moved Permanently` yields `CodeBlocked`, and any
other reason phrase yields `ServiceError`. -/
theorem claim7_bitly_reason (t : Transport) (code loc : String)
    (h301 : (t.head code).status = 301)
    (hloc : (t.head code).getheader "Location" = some loc) (hne : loc ≠ "") :
    ((t.head code).reason = "Moved" → Bitly.fetch t code = Res.ret (some loc)) ∧
    ((t.head code).reason = "Moved Permanently" →
      Bitly.fetch t code = Res.exc (.CodeBlockedException none)) ∧
    ((t.head code).reason ≠ "Moved" → (t.head code).reason ≠ "Moved Permanently" →
      Bitly.fetch t code = Res.exc (.ServiceException
        ("Unknown HTTP reason " ++ (t.head code).reason ++ " after HTTP status 301"))) := by
  unfold Bitly.fetch
  refine ⟨fun hr => ?_, fun hr => ?_, fun hr1 hr2 => ?_⟩
  · simp [h301, hloc, pyFalsy, hne, hr]
  · simp [h301, hloc, pyFalsy, hne, hr]
  · simp [h301, hloc, pyFalsy, hne, hr1, hr2]

theorem claim7_witness :
    Bitly.fetch tBitlyMoved "abc" = Res.ret (some "http://example.org/long") :=
  (claim7_bitly_reason tBitlyMoved "abc" "http://example.org/long" rfl (by decide)
    (by decide)).1 rfl

/-- Claim C5 counterexample: constructing a Yourls service with the
configured base 10 succeeds (the constructor validates only the URL
scheme), so an invalid base is not a construction-time failure; the
`RuntimeError` only occurs when the `charset` property is accessed. -/
theorem claim5_counterexample :
    YourlsService.init ⟨"http://example.org/yourls-api.php", 10⟩ =
      Except.ok ⟨"/yourls-api.php", false, "example.org"⟩ ∧
    YourlsService.charset ⟨"http://example.org/yourls-api.php", 10⟩ =
      Except.error (.runtimeError "Bad value for yourls_url_convert parameter") :=
  ⟨rfl, rfl⟩

/-- Claim C5 (amended): the Yourls charset is derived from the configured
numeric base (36 gives the lowercase alphanumeric alphabet, 62 the
mixed-case alphanumeric alphabet); for any other base, reading the
`charset` property raises a fatal `RuntimeError`, while construction
ignores the base entirely and therefore cannot fail because of it. -/
theorem claim5_yourls_charset (cfg : YourlsConfig) :
    (cfg.yourls_url_convert = 36 → YourlsService.charset cfg =
      Except.ok "0123456789abcdefghijklmnopqrstuvwxyz") ∧
    (cfg.yourls_url_convert = 62 → YourlsService.charset cfg =
      Except.ok "0123456789abcdefghijklmnopqrstuvwxyzABCDEFGHIJKLMNOPQRSTUVWXYZ") ∧
    (cfg.yourls_url_convert ≠ 36 → cfg.yourls_url_convert ≠ 62 →
      YourlsService.charset cfg =
        Except.error (.runtimeError "Bad value for yourls_url_convert parameter")) ∧
    (∀ b : Nat, YourlsService.init cfg = YourlsService.init ⟨cfg.yourls_api_url, b⟩) := by
  refine ⟨fun h => ?_, fun h => ?_, fun h1 h2 => ?_, fun b => rfl⟩
  · unfold YourlsService.charset
    simp [h]
  · unfold YourlsService.charset
    simp [h]
  · unfold YourlsService.charset
    simp [h1, h2]

theorem claim5_witness :
    YourlsService.charset ⟨"http://example.org/yourls-api.php", 10⟩ =
      Except.error (.runtimeError "Bad value for yourls_url_convert parameter") :=
  (claim5_yourls_charset ⟨"http://example.org/yourls-api.php", 10⟩).2.2.1
    (by decide) (by decide)

/-- Case analysis of `Bitly._parse_warning_url`. -/
theorem parse_warning_url_cases (code url : String) :
    (Bitly.warningOk code url →
      Bitly.parse_warning_url code url =
        Res.ret (some ((parseQs (urlparse url).query "url").headD ""))) ∧
    (¬ Bitly.warningOk code url →
      ∃ m, Bitly.parse_warning_url code url = Res.exc (.ServiceException m)) := by
  unfold Bitly.parse_warning_url Bitly.warningOk
  constructor
  · rintro ⟨hs, hn, hp, hu, hh, hc⟩
    have hune : parseQs (urlparse url).query "url" ≠ [] := by
      intro e
      rw [e] at hu
      simp at hu
    have hhne : parseQs (urlparse url).query "hash" ≠ [] := by
      intro e
      rw [e] at hh
      simp at hh
    rw [if_neg (by push_neg; exact ⟨hs, hn, hp⟩),
        if_neg (by push_neg; exact ⟨⟨hune, hu⟩, hhne, hh⟩),
        if_neg (by push_neg; exact hc)]
  · intro hnot
    by_cases h1 : (urlparse url).scheme = "http" ∧ (urlparse url).netloc = "bit.ly" ∧
        (urlparse url).path = "/a/warning"
    case neg =>
      refine ⟨"Unexpected Location header after HTTP status 302", ?_⟩
      rw [if_pos ?_]
      by_cases hs : (urlparse url).scheme = "http"
      · by_cases hn : (urlparse url).netloc = "bit.ly"
        · exact Or.inr (Or.inr (fun hp => h1 ⟨hs, hn, hp⟩))
        · exact Or.inr (Or.inl hn)
      · exact Or.inl hs
    case pos =>
      by_cases h2 : (parseQs (urlparse url).query "url").length = 1 ∧
          (parseQs (urlparse url).query "hash").length = 1
      case neg =>
        refine ⟨"Unexpected Location header after HTTP status 302", ?_⟩
        rw [if_neg (by push_neg; exact ⟨h1.1, h1.2.1, h1.2.2⟩), if_pos ?_]
        by_cases hB : (parseQs (urlparse url).query "url").length = 1
        · exact Or.inr (fun hcd => h2 ⟨hB, hcd.2⟩)
        · exact Or.inl (fun hab => hB hab.2)
      case pos =>
        have hc : (parseQs (urlparse url).query "hash").headD "" ≠ code := by
          intro e
          exact hnot ⟨h1.1, h1.2.1, h1.2.2, h2.1, h2.2, e⟩
        have hune : parseQs (urlparse url).query "url" ≠ [] := by
          intro e
          rw [e] at h2
          simp at h2
        have hhne : parseQs (urlparse url).query "hash" ≠ [] := by
          intro e
          rw [e] at h2
          simp at h2
        refine ⟨"Hash mismatch for HTTP status 302", ?_⟩
        rw [if_neg (by push_neg; exact ⟨h1.1, h1.2.1, h1.2.2⟩),
            if_neg (by push_neg; exact ⟨⟨hune, h2.1⟩, hhne, h2.2⟩), if_pos hc]

/-- Claim C8: for `Bitly` on a 302 response with a non-empty `Location`,
the embedded URL is trusted exactly when the location has scheme `http`,
host `bit.ly`, path `/a/warning`, exactly one `url` and one `hash` query
value, and the `hash` value equals the code; then fetch returns `LongURL`
of the `url` value, and on any mismatch the result is `ServiceError`. -/
theorem claim8_bitly_warning (t : Transport) (code loc : String)
    (h302 : (t.head code).status = 302)
    (hloc : (t.head code).getheader "Location" = some loc) (hne : loc ≠ "") :
    (Bitly.warningOk code loc →
      Bitly.fetch t code = Res.ret (some ((parseQs (urlparse loc).query "url").headD ""))) ∧
    (¬ Bitly.warningOk code loc →
      ∃ m, Bitly.fetch t code = Res.exc (.ServiceException m)) := by
  have hred : Bitly.fetch t code = Bitly.parse_warning_url code loc := by
    unfold Bitly.fetch
    simp [h302, hloc, pyFalsy, hne]
  rw [hred]
  exact parse_warning_url_cases code loc

theorem claim8_witness :
    Bitly.warningOk "abc" "http://bit.ly/a/warning?url=http://example.org/page&hash=abc" ∧
    Bitly.fetch tBitlyWarning "abc" = Res.ret (some "http://example.org/page") := by
  refine ⟨by decide, ?_⟩
  have h := (claim8_bitly_warning tBitlyWarning "abc"
    "http://bit.ly/a/warning?url=http://example.org/page&hash=abc"
    rfl (by decide) (by decide)).1 (by decide)
  exact h.trans (by decide)
